import Mathlib

/-!
Shallow embedding of `progress_interface` (src/progress_interface/base.py).

The embedding models the code of `base.py`, which is the authoritative module
for all claims: the progress-meter data model (`AbstractProgressMeter`,
`NullProgressMeter`, `TestProgressMeter`), the configuration object
(`ProgressConfig`), the resolution function (`progress_config`), the factory
entry point (`get_progress`), the registry (`REGISTRY` / `register`) and the
iteration wrapper (`ProgressIterator`).

Python dictionaries are modelled as association lists (`Dict`); the mutable
keyword-argument dictionaries owned by `ProgressConfig` objects live in an
explicit store (`Store`) addressed by allocation index, so that mutation and
aliasing claims are expressible.  Python exceptions are modelled by `PyErr`;
operations that can raise return `Except PyErr _` or an `Option PyErr × _`
pair carrying the (possibly unchanged) post-state, mirroring the fact that
`TestProgressMeter.moveto` raises before performing any mutation.
-/

set_option autoImplicit false

namespace ProgressInterface

/-- Python exceptions raised by the code under `src/progress_interface/base.py`. -/
inductive PyErr : Type where
  /-- `KeyError`, raised by `REGISTRY[arg]` on a missing key. -/
  | keyError
  /-- `TypeError`: unrecognized argument shape, or calling a non-callable object. -/
  | typeError
  /-- `ValueError`: bounds / decrement-policy violations, registry key conflicts. -/
  | valueError
  /-- `RuntimeError`: mutating a closed `TestProgressMeter`. -/
  | runtimeError
deriving DecidableEq, Repr

/-- Python values that appear as keyword-argument values in this code base. -/
inductive Val : Type where
  | int (n : Int)
  | bool (b : Bool)
  | str (s : String)
  | pynone
deriving DecidableEq, Repr

/-- Python truthiness of a `Val` (used by `if not self.allow_decrement`). -/
def Val.truthy : Val → Bool
  | .int n => decide (n ≠ 0)
  | .bool b => b
  | .str s => decide (s ≠ "")
  | .pynone => false

/-- A Python keyword-argument dictionary: insertion-ordered association list
with unique keys maintained by the operations below. -/
abbrev Dict := List (String × Val)

/-- Dictionary key lookup (`d[k]` / `k in d`). -/
def kwLookup : Dict → String → Option Val
  | [], _ => Option.none
  | (k', v) :: t, k => if k' = k then some v else kwLookup t k

/-- Removing a key from a dictionary (models Python binding a keyword argument
to a named parameter, which removes it from the residual `**kw` dict). -/
def eraseKey : Dict → String → Dict
  | [], _ => []
  | (k', v) :: t, k => if k' = k then eraseKey t k else (k', v) :: eraseKey t k

/-- `d[k] = v` on a Python dict: overwrite in place if the key is present
(keeping its position), append otherwise. -/
def dictSet : Dict → String → Val → Dict
  | [], k, v => [(k, v)]
  | (k', v') :: t, k, v => if k' = k then (k', v) :: t else (k', v') :: dictSet t k v

/-- `d.update(u)` on a Python dict: set each entry of `u` in order. -/
def dictUpdate : Dict → Dict → Dict
  | d, [] => d
  | d, (k, v) :: t => dictUpdate (dictSet d k v) t

/-- The heap of keyword-argument dictionaries owned by `ProgressConfig`
instances; an address is an index into the list. -/
abbrev Store := List Dict

/-- Dereference an address (a well-formed program only reads allocated ones). -/
def Store.get : Store → Nat → Dict
  | [], _ => []
  | d :: _, 0 => d
  | _ :: t, a + 1 => Store.get t a

/-- Allocate a fresh dictionary, returning the new store and its address. -/
def Store.alloc (s : Store) (d : Dict) : Store × Nat := (s ++ [d], s.length)

/-- The mutable state of a `TestProgressMeter` instance
(`base.py` lines 352-357): `n`, `total`, `allow_decrement`, the residual
options dict `kw`, and `closed`. -/
structure TestState : Type where
  n : Int
  total : Int
  allowDecrement : Bool
  kw : Dict
  closed : Bool
deriving DecidableEq, Repr

/-- A progress meter instance of one of the concrete classes of `base.py`.
`NullProgressMeter.__init__` sets no attributes at all, so a null meter
carries no state. -/
inductive Meter : Type where
  | null
  | test (st : TestState)
deriving DecidableEq, Repr

/-- Reading the `n` attribute; a `NullProgressMeter` instance has never set
it, so attribute access fails (`AttributeError`), modelled as `none`. -/
def Meter.position? : Meter → Option Int
  | .null => Option.none
  | .test st => some st.n

/-- Reading the `total` attribute (absent on `NullProgressMeter`). -/
def Meter.total? : Meter → Option Int
  | .null => Option.none
  | .test st => some st.total

/-- Reading the `closed` attribute (absent on `NullProgressMeter`). -/
def Meter.closed? : Meter → Option Bool
  | .null => Option.none
  | .test st => some st.closed

/-- `TestProgressMeter.moveto` (`base.py` lines 362-371).  Each `raise`
happens before the assignment `self.n = n`, so on error the state is
returned unchanged. -/
def TestState.moveto (st : TestState) (n : Int) : Option PyErr × TestState :=
  if st.closed then (some .runtimeError, st)
  else if n < 0 then (some .valueError, st)
  else if st.total < n then (some .valueError, st)
  else if st.allowDecrement = false ∧ n < st.n then (some .valueError, st)
  else (Option.none, { st with n := n })

/-- `TestProgressMeter.increment` (`base.py` lines 359-360):
`self.moveto(self.n + delta)`. -/
def TestState.increment (st : TestState) (delta : Int) : Option PyErr × TestState :=
  st.moveto (st.n + delta)

/-- `moveto` on any meter: `NullProgressMeter.moveto` is a no-op. -/
def Meter.moveto : Meter → Int → Option PyErr × Meter
  | .null, _ => (Option.none, .null)
  | .test st, n =>
    match st.moveto n with
    | (e, st') => (e, .test st')

/-- `increment` on any meter: `NullProgressMeter.increment` is a no-op,
`TestProgressMeter.increment` delegates to `moveto`. -/
def Meter.increment : Meter → Int → Option PyErr × Meter
  | .null, _ => (Option.none, .null)
  | .test st, delta =>
    match st.increment delta with
    | (e, st') => (e, .test st')

/-- `close` (`NullProgressMeter.close` is a no-op; `TestProgressMeter.close`
sets `closed = True`; neither raises). -/
def Meter.close : Meter → Meter
  | .null => .null
  | .test st => .test { st with closed := true }

/-- `TestProgressMeter.__init__` (`base.py` lines 352-357). -/
def TestProgressMeter.init (total : Int) (initial : Int) (allowDecrement : Bool)
    (kw : Dict) : TestState :=
  { n := initial, total := total, allowDecrement := allowDecrement, kw := kw,
    closed := false }

/-- Binding of the `initial` keyword parameter of `TestProgressMeter.create`
out of a `**kw` dict (default `0`).  A non-integer value would make the
source's later integer comparisons raise, and no caller passes one; it is
modelled as an immediate `TypeError`. -/
def popInitial (kw : Dict) : Except PyErr (Int × Dict) :=
  match kwLookup kw "initial" with
  | Option.none => .ok (0, kw)
  | some (.int n) => .ok (n, eraseKey kw "initial")
  | some _ => .error .typeError

/-- Binding of a truthiness-tested keyword parameter (`allow_decrement`)
out of a `**kw` dict. -/
def popTruthy (kw : Dict) (k : String) (dflt : Bool) : Bool × Dict :=
  match kwLookup kw k with
  | Option.none => (dflt, kw)
  | some v => (v.truthy, eraseKey kw k)

/-- `TestProgressMeter.create` (`base.py` lines 376-378):
`cls(total, initial, **kw)`, with `__init__` binding `allow_decrement` and
storing the rest verbatim in `self.kw`. -/
def TestProgressMeter.create (total : Int) (kw : Dict) : Except PyErr Meter :=
  match popInitial kw with
  | .error e => .error e
  | .ok (initial, kw1) =>
    match popTruthy kw1 "allow_decrement" true with
    | (ad, kw2) => .ok (.test (TestProgressMeter.init total initial ad kw2))

/-- `NullProgressMeter.create` (`base.py` lines 338-340): ignores all
arguments and returns a fresh bare instance. -/
def NullProgressMeter.create (_total : Int) (_kw : Dict) : Except PyErr Meter :=
  .ok .null

/-- The values that ever reach the `callable` attribute of a `ProgressConfig`
in this code base (the source's `ProgressFactoryFunc` type alias): the bound
`create` classmethod of `TestProgressMeter` or `NullProgressMeter`, or — via
the string branch of `progress_config`, which stores `REGISTRY[arg]` there —
a `ProgressConfig` instance itself, carried by its two fields.  A
`ProgressConfig` instance defines no `__call__`, so calling it raises
`TypeError` (see `callFactory`). -/
inductive ProgressFactoryFunc : Type where
  | testCreate
  | nullCreate
  | cfgObj (callableF : ProgressFactoryFunc) (kwAddr : Nat)
deriving DecidableEq, Repr

/-- `ProgressConfig` (`base.py` lines 91-126): a factory callable plus the
address of its mutable keyword-argument dictionary in the store. -/
structure ProgressConfig : Type where
  callable : ProgressFactoryFunc
  kw : Nat
deriving DecidableEq, Repr

/-- Concrete `AbstractProgressMeter` subclasses of `base.py` that a caller
can pass as the progress argument.  (The tqdm/click wrappers of `meters.py`
construct third-party objects and are outside the claims.) -/
inductive MeterClass : Type where
  | testMeter
  | nullMeter
deriving DecidableEq, Repr

/-- The bound `create` classmethod of a concrete meter class. -/
def MeterClass.createFn : MeterClass → ProgressFactoryFunc
  | .testMeter => .testCreate
  | .nullMeter => .nullCreate

/-- The Python call `self.callable(total, **final_kw)`.  A `ProgressConfig`
instance is not callable, so the `cfgObj` case raises `TypeError`.  For the
two `create` classmethods, a `**kw` entry named `total` would collide with
the positional `total` parameter and raise `TypeError` at binding time. -/
def callFactory : ProgressFactoryFunc → Int → Dict → Except PyErr Meter
  | .cfgObj _ _, _, _ => .error .typeError
  | .testCreate, total, kw =>
    if (kwLookup kw "total").isSome then .error .typeError
    else TestProgressMeter.create total kw
  | .nullCreate, total, kw =>
    if (kwLookup kw "total").isSome then .error .typeError
    else NullProgressMeter.create total kw

/-- `ProgressConfig.create` (`base.py` lines 113-120):
`final_kw = dict(self.kw); final_kw.update(kw); return self.callable(total, **final_kw)`.
`final_kw` is a fresh local dict, and splatting into the call builds the
callee's `**kw` dict fresh again, so `create` never writes to the store. -/
def ProgressConfig.create (c : ProgressConfig) (total : Int) (kw : Dict)
    (s : Store) : Except PyErr Meter :=
  callFactory c.callable total (dictUpdate (Store.get s c.kw) kw)

/-- `ProgressConfig.update` (`base.py` lines 122-126):
`new_kw = dict(self.kw); new_kw.update(overrides);
return ProgressConfig(self.callable, new_kw)`.  The copy followed by the
in-place update of the fresh dict is modelled as allocating the merged dict
at a fresh address. -/
def ProgressConfig.update (c : ProgressConfig) (overrides : Dict) (s : Store) :
    ProgressConfig × Store :=
  match Store.alloc s (dictUpdate (Store.get s c.kw) overrides) with
  | (s1, a) => ({ callable := c.callable, kw := a }, s1)

/-- The module-level `REGISTRY` dict (`base.py` line 9), mapping string keys
to `ProgressConfig` instances. -/
abbrev Registry := List (String × ProgressConfig)

/-- `REGISTRY[key]` lookup. -/
def regLookup : Registry → String → Option ProgressConfig
  | [], _ => Option.none
  | (k', c) :: t, k => if k' = k then some c else regLookup t k

/-- `REGISTRY[key] = config` assignment. -/
def regSet : Registry → String → ProgressConfig → Registry
  | [], k, c => [(k, c)]
  | (k', c') :: t, k, c =>
    if k' = k then (k', c) :: t else (k', c') :: regSet t k c

/-- The source's `ProgressArg` union: the runtime shapes `progress_config`
dispatches on.  `other` stands for any value matching none of the
`isinstance`/identity checks (e.g. the integer `0` used in the tests). -/
inductive ProgressArg : Type where
  | config (c : ProgressConfig)
  | null
  | boolFalse
  | boolTrue
  | str (key : String)
  | cls (mc : MeterClass)
  | func (f : ProgressFactoryFunc)
  | other
deriving DecidableEq, Repr

/-- `default_config` (`base.py` lines 129-141).  Its `try` block runs
`from tqdm import tqdm; from .lib import TqdmProgressMeter`; the package has
no module `lib`, so the second import always raises `ImportError` and the
`except` branch runs: warn and return `NullProgressMeter.config()` (i.e.
`ProgressConfig(NullProgressMeter.create, {})` with a fresh empty dict). -/
def default_config (s : Store) : ProgressConfig × Store :=
  match Store.alloc s [] with
  | (s1, a) => ({ callable := .nullCreate, kw := a }, s1)

/-- `progress_config` (`base.py` lines 148-166), the resolution function.
The source's `isinstance`/identity chain is a disjoint case analysis on the
shape of `arg`, rendered as a match.  Each branch other than the
`ProgressConfig` one builds `ProgressConfig(<factory>, kw)` whose `kw` dict
is the call's fresh `**kw` dict, modelled by allocating it. -/
def progress_config (reg : Registry) (arg : ProgressArg) (kw : Dict)
    (s : Store) : Except PyErr (ProgressConfig × Store) :=
  match arg with
  | .config c => if kw.isEmpty then .ok (c, s) else .ok (c.update kw s)
  | .null =>
    match Store.alloc s kw with
    | (s1, a) => .ok ({ callable := .nullCreate, kw := a }, s1)
  | .boolFalse =>
    match Store.alloc s kw with
    | (s1, a) => .ok ({ callable := .nullCreate, kw := a }, s1)
  | .boolTrue => .ok (default_config s)
  | .cls mc =>
    match Store.alloc s kw with
    | (s1, a) => .ok ({ callable := mc.createFn, kw := a }, s1)
  | .str key =>
    match regLookup reg key with
    | Option.none => .error .keyError
    | some rc =>
      match Store.alloc s kw with
      | (s1, a) => .ok ({ callable := .cfgObj rc.callable rc.kw, kw := a }, s1)
  | .func f =>
    match Store.alloc s kw with
    | (s1, a) => .ok ({ callable := f, kw := a }, s1)
  | .other => .error .typeError

/-- `get_progress` (`base.py` lines 169-201):
`config = progress_config(arg); return config.create(total, initial=initial, **kw)`.
Note the source does *not* forward `**kw` to `progress_config`; the call
keyword dict of `create` is `{initial: initial, **kw}` (callers never pass
`initial` inside `kw`). -/
def get_progress (reg : Registry) (arg : ProgressArg) (total : Int)
    (initial : Int) (kw : Dict) (s : Store) : Except PyErr Meter :=
  match progress_config reg arg [] s with
  | .error e => .error e
  | .ok (config, s1) => config.create total (("initial", Val.int initial) :: kw) s1

/-- `register` (`base.py` lines 204-234), in its directly-applied form
(`arg` given, so the inner decorator runs immediately): raise `ValueError`
if the key exists and `overwrite` is false, else store
`progress_config(_arg)` (resolved with no extra options) under the key. -/
def register (reg : Registry) (key : String) (arg : ProgressArg)
    (overwrite : Bool) (s : Store) : Except PyErr (Registry × Store) :=
  if overwrite = false ∧ (regLookup reg key).isSome then .error .valueError
  else
    match progress_config reg arg [] s with
    | .error e => .error e
    | .ok (c, s1) => .ok (regSet reg key c, s1)

/-- The state of a `ProgressIterator` (`base.py` lines 237-263): the
remaining elements of the underlying iterator, the meter, and the `_first`
flag.  A Python list iterator keeps raising `StopIteration` once exhausted,
which the remaining-elements list models. -/
structure ProgressIterator : Type where
  itr : List Val
  meter : Meter
  first : Bool
deriving DecidableEq, Repr

/-- Outcome of one `__next__` call: a value, `StopIteration`, or a
propagated exception from the meter. -/
inductive NextOutcome : Type where
  | value (v : Val)
  | stop
  | error (e : PyErr)
deriving DecidableEq, Repr

/-- `ProgressIterator.__next__` (`base.py` lines 246-257).  If this is not
the first call, `self.meter.increment()` runs first; an exception from it
propagates before `self._first = False` executes.  Then the next element is
fetched; on exhaustion the meter is closed and `StopIteration` propagates. -/
def ProgressIterator.next (it : ProgressIterator) : NextOutcome × ProgressIterator :=
  match (if it.first then (Option.none, it.meter) else it.meter.increment 1) with
  | (some e, m) => (.error e, { it with meter := m })
  | (Option.none, m) =>
    match it.itr with
    | [] => (.stop, { itr := [], meter := m.close, first := false })
    | v :: rest => (.value v, { itr := rest, meter := m, first := false })

/-- `ProgressIterator.__exit__` (`base.py` lines 262-263): close the meter
unconditionally on scope exit. -/
def ProgressIterator.exit (it : ProgressIterator) : ProgressIterator :=
  { it with meter := it.meter.close }

/-- The iterator state after `k` calls to `__next__` (each call keeps the
state carried by its outcome; on an error outcome the state is unchanged). -/
def ProgressIterator.nextN (it : ProgressIterator) : Nat → ProgressIterator
  | 0 => it
  | k + 1 => (it.nextN k).next.2

/-- The iteration wrapper of claims C3/C4/C10: a `ProgressIterator` over a
sequence `xs` and a fresh reference meter `TestProgressMeter(len(xs), 0)`. -/
def mkIter (xs : List Val) : ProgressIterator :=
  { itr := xs,
    meter := .test (TestProgressMeter.init (xs.length : Int) 0 true []),
    first := true }

deriving instance DecidableEq for Except

/-- The invariant of spec §3 for the reference meter: `0 <= position <= total`. -/
def TestInv (st : TestState) : Prop := 0 ≤ st.n ∧ st.n ≤ st.total

/-- First-defined option, used to state dictionary merge precedence
("override wins on key collision"). -/
def firstSome (a b : Option Val) : Option Val :=
  match a with
  | some v => some v
  | Option.none => b

/-! ## Helper lemmas -/

theorem kwLookup_eq_none (d : Dict) (k : String) (h : k ∉ d.map Prod.fst) :
    kwLookup d k = Option.none := by
  induction d with
  | nil => rfl
  | cons p t ih =>
    obtain ⟨k', v⟩ := p
    simp only [List.map_cons, List.mem_cons] at h
    push_neg at h
    simp only [kwLookup, if_neg (Ne.symm h.1)]
    exact ih h.2

theorem kwLookup_dictSet (d : Dict) (a k : String) (v : Val) :
    kwLookup (dictSet d a v) k = if k = a then some v else kwLookup d k := by
  induction d with
  | nil =>
    simp only [dictSet, kwLookup]
    by_cases h : a = k
    · rw [if_pos h, if_pos h.symm]
    · rw [if_neg h, if_neg (Ne.symm h)]
  | cons p t ih =>
    obtain ⟨k', v'⟩ := p
    simp only [dictSet]
    by_cases h1 : k' = a
    · rw [if_pos h1]
      simp only [kwLookup]
      by_cases h2 : k' = k
      · rw [if_pos h2, if_pos (h2.symm.trans h1)]
      · simp only [if_neg h2]
        rw [if_neg (fun hh : k = a => h2 (h1.trans hh.symm))]
    · rw [if_neg h1]
      simp only [kwLookup, ih]
      by_cases h2 : k' = k
      · rw [if_pos h2, if_neg (fun hh : k = a => h1 (h2.trans hh)), if_pos h2]
      · rw [if_neg h2]
        by_cases h3 : k = a
        · rw [if_pos h3, if_pos h3]
        · rw [if_neg h3, if_neg h3, if_neg h2]

theorem kwLookup_dictUpdate (x : Dict) (d : Dict) (k : String)
    (hx : (x.map Prod.fst).Nodup) :
    kwLookup (dictUpdate d x) k = firstSome (kwLookup x k) (kwLookup d k) := by
  induction x generalizing d with
  | nil => simp [dictUpdate, kwLookup, firstSome]
  | cons p t ih =>
    obtain ⟨a, v⟩ := p
    simp only [List.map_cons, List.nodup_cons] at hx
    simp only [dictUpdate]
    rw [ih _ hx.2]
    by_cases h : k = a
    · subst h
      rw [kwLookup_eq_none t k hx.1]
      simp [kwLookup, firstSome, kwLookup_dictSet]
    · rw [kwLookup_dictSet, if_neg h]
      simp only [kwLookup, if_neg (Ne.symm h)]

theorem store_get_append_lt (s : Store) (d : Dict) (a : Nat) (h : a < s.length) :
    Store.get (s ++ [d]) a = Store.get s a := by
  induction s generalizing a with
  | nil => simp at h
  | cons hd t ih =>
    cases a with
    | zero => rfl
    | succ a =>
      simp only [List.length_cons] at h
      exact ih a (by omega)

theorem store_get_append_length (s : Store) (d : Dict) :
    Store.get (s ++ [d]) s.length = d := by
  induction s with
  | nil => rfl
  | cons hd t ih => exact ih

/-! ## Claim theorems -/

/-- Claim C5: on a non-closed reference meter with `allow_decrement` true,
`moveto(n)` with `0 <= n <= total` succeeds and sets the position to `n`;
with `n < 0` or `n > total` it raises `ValueError` and leaves the state
unchanged. -/
theorem testMeter_moveto_bounds (st : TestState) (nv : Int)
    (hc : st.closed = false) (had : st.allowDecrement = true) :
    ((0 ≤ nv ∧ nv ≤ st.total) → st.moveto nv = (Option.none, { st with n := nv })) ∧
    ((nv < 0 ∨ st.total < nv) → st.moveto nv = (some .valueError, st)) := by
  constructor
  · rintro ⟨h0, h1⟩
    unfold TestState.moveto
    rw [hc, had]
    simp only [Bool.false_eq_true, if_false]
    rw [if_neg (by omega), if_neg (by omega), if_neg (by simp)]
  · intro h
    unfold TestState.moveto
    rw [hc]
    simp only [Bool.false_eq_true, if_false]
    rcases h with h | h
    · rw [if_pos h]
    · by_cases h0 : nv < 0
      · rw [if_pos h0]
      · rw [if_neg h0, if_pos h]

/-- Witness for C5 at `total = 10`, position `0`: `moveto 5` succeeds,
`moveto 11` raises `ValueError` leaving the state unchanged. -/
theorem testMeter_moveto_bounds_witness :
    TestState.moveto ⟨0, 10, true, [], false⟩ 5 =
      (Option.none, ⟨5, 10, true, [], false⟩) ∧
    TestState.moveto ⟨0, 10, true, [], false⟩ 11 =
      (some .valueError, ⟨0, 10, true, [], false⟩) := by
  have h5 := testMeter_moveto_bounds ⟨0, 10, true, [], false⟩ 5 rfl rfl
  have h11 := testMeter_moveto_bounds ⟨0, 10, true, [], false⟩ 11 rfl rfl
  exact ⟨h5.1 ⟨by decide, by decide⟩, h11.2 (Or.inr (by decide))⟩

/-- Claim C6: once a reference meter is closed, every `moveto` and every
`increment` (any argument) raises `RuntimeError` and leaves the state
unchanged; the error is propagated, never clamped. -/
theorem testMeter_closed_raises (st : TestState) (nv delta : Int)
    (hc : st.closed = true) :
    st.moveto nv = (some .runtimeError, st) ∧
    st.increment delta = (some .runtimeError, st) := by
  unfold TestState.increment TestState.moveto
  rw [hc]
  simp

/-- Witness for C6 on a concrete closed meter. -/
theorem testMeter_closed_raises_witness :
    TestState.moveto ⟨3, 10, true, [], true⟩ 4 =
      (some .runtimeError, ⟨3, 10, true, [], true⟩) ∧
    TestState.increment ⟨3, 10, true, [], true⟩ 1 =
      (some .runtimeError, ⟨3, 10, true, [], true⟩) :=
  testMeter_closed_raises ⟨3, 10, true, [], true⟩ 4 1 rfl

/-- Claim C7: `0 <= position <= total` holds after constructing a reference
meter with `0 <= initial <= total` and is preserved by `moveto`,
`increment` and `close`, whether the operation succeeds or fails; moreover
a failed `moveto`/`increment` leaves the whole state unchanged. -/
theorem testMeter_invariant :
    (∀ (total initial : Int) (ad : Bool) (kw : Dict),
        0 ≤ initial → initial ≤ total →
        TestInv (TestProgressMeter.init total initial ad kw)) ∧
    (∀ (st : TestState) (nv : Int), TestInv st → TestInv (st.moveto nv).2) ∧
    (∀ (st : TestState) (delta : Int), TestInv st → TestInv (st.increment delta).2) ∧
    (∀ st : TestState, TestInv st →
        Meter.close (.test st) = .test { st with closed := true } ∧
        TestInv { st with closed := true }) ∧
    (∀ (st : TestState) (nv : Int), (st.moveto nv).1.isSome → (st.moveto nv).2 = st) ∧
    (∀ (st : TestState) (delta : Int),
        (st.increment delta).1.isSome → (st.increment delta).2 = st) := by
  have hmove : ∀ (st : TestState) (nv : Int), TestInv st → TestInv (st.moveto nv).2 := by
    intro st nv hinv
    unfold TestState.moveto
    split_ifs with h1 h2 h3 h4
    · exact hinv
    · exact hinv
    · exact hinv
    · exact hinv
    · unfold TestInv at hinv ⊢
      dsimp only
      omega
  have hunch : ∀ (st : TestState) (nv : Int),
      (st.moveto nv).1.isSome → (st.moveto nv).2 = st := by
    intro st nv h
    unfold TestState.moveto at h ⊢
    split_ifs at h ⊢ with h1 h2 h3 h4
    · rfl
    · rfl
    · rfl
    · rfl
    · simp at h
  refine ⟨?_, hmove, ?_, ?_, hunch, ?_⟩
  · intro total initial ad kw h0 h1
    exact ⟨h0, h1⟩
  · intro st delta hinv
    exact hmove st (st.n + delta) hinv
  · intro st hinv
    exact ⟨rfl, hinv⟩
  · intro st delta h
    exact hunch st (st.n + delta) h

/-- Witness for C7 at a concrete construction and a failed and a successful
operation. -/
theorem testMeter_invariant_witness :
    TestInv (TestProgressMeter.init 10 3 true []) ∧
    TestInv ((TestState.moveto ⟨3, 10, true, [], false⟩ 7).2) ∧
    (TestState.increment ⟨3, 10, true, [], false⟩ 100).2 =
      ⟨3, 10, true, [], false⟩ := by
  refine ⟨testMeter_invariant.1 10 3 true [] (by decide) (by decide),
          testMeter_invariant.2.1 ⟨3, 10, true, [], false⟩ 7 ⟨by decide, by decide⟩,
          testMeter_invariant.2.2.2.2.2 ⟨3, 10, true, [], false⟩ 100 (by decide)⟩

/-- Claim C8: `c.update(x)` yields a new `ProgressConfig` whose options are
`x` merged on top of `c`'s stored defaults (`x` wins on key collision),
sharing the same factory; `c`'s own option dict is untouched, the new
config's dict lives at a different address (no shared mutable map), and a
subsequent `c.create(...)` gives the same result as if `update` had never
run. -/
theorem progressConfig_update_pure (c : ProgressConfig) (x : Dict) (s : Store)
    (hv : c.kw < s.length) (hx : (x.map Prod.fst).Nodup) :
    Store.get (c.update x s).2 c.kw = Store.get s c.kw ∧
    (c.update x s).1.kw ≠ c.kw ∧
    (c.update x s).1.callable = c.callable ∧
    (∀ k : String,
        kwLookup (Store.get (c.update x s).2 (c.update x s).1.kw) k =
          firstSome (kwLookup x k) (kwLookup (Store.get s c.kw) k)) ∧
    (∀ (total : Int) (callKw : Dict),
        ProgressConfig.create c total callKw (c.update x s).2 =
          ProgressConfig.create c total callKw s) := by
  have hupd : c.update x s =
      ({ callable := c.callable, kw := s.length },
        s ++ [dictUpdate (Store.get s c.kw) x]) := rfl
  rw [hupd]
  have hframe : Store.get (s ++ [dictUpdate (Store.get s c.kw) x]) c.kw =
      Store.get s c.kw := store_get_append_lt s _ c.kw hv
  refine ⟨hframe, by dsimp only; omega, rfl, ?_, ?_⟩
  · intro k
    dsimp only
    rw [store_get_append_length, kwLookup_dictUpdate x _ k hx]
  · intro total callKw
    unfold ProgressConfig.create
    rw [hframe]

/-- Witness for C8 at a concrete config, store and override dict. -/
theorem progressConfig_update_pure_witness :
    Store.get (ProgressConfig.update ⟨.testCreate, 0⟩
        [("b", Val.int 2), ("a", Val.int 9)] [[("a", Val.int 1)]]).2 0 =
      [("a", Val.int 1)] ∧
    (ProgressConfig.update ⟨.testCreate, 0⟩
        [("b", Val.int 2), ("a", Val.int 9)] [[("a", Val.int 1)]]).1.kw ≠ 0 ∧
    kwLookup (Store.get (ProgressConfig.update ⟨.testCreate, 0⟩
        [("b", Val.int 2), ("a", Val.int 9)] [[("a", Val.int 1)]]).2
      (ProgressConfig.update ⟨.testCreate, 0⟩
        [("b", Val.int 2), ("a", Val.int 9)] [[("a", Val.int 1)]]).1.kw) "a" =
      some (Val.int 9) := by
  have h := progressConfig_update_pure ⟨.testCreate, 0⟩
    [("b", Val.int 2), ("a", Val.int 9)] [[("a", Val.int 1)]]
    (by decide) (by decide)
  exact ⟨h.1, h.2.1, (h.2.2.2.1 "a").trans (by decide)⟩

/-- Claim C9: resolution is idempotent on Configurations: resolving an
existing `ProgressConfig` with no extra options returns that very object
with the store untouched, so re-resolving any result of resolution yields
an equal result. -/
theorem progress_config_idempotent (reg : Registry) (s : Store)
    (c : ProgressConfig) :
    progress_config reg (.config c) [] s = .ok (c, s) ∧
    (∀ (arg : ProgressArg) (kw : Dict) (c' : ProgressConfig) (s' : Store),
        progress_config reg arg kw s = .ok (c', s') →
        progress_config reg (.config c') [] s' = .ok (c', s')) := by
  exact ⟨rfl, fun arg kw c' s' _ => rfl⟩

/-- Witness for C9: resolve `None` to a fresh Null configuration, then
re-resolve the result with no extra options. -/
theorem progress_config_idempotent_witness :
    progress_config [] (.config ⟨.nullCreate, 0⟩) [] [[]] =
      .ok (⟨.nullCreate, 0⟩, [[]]) :=
  (progress_config_idempotent [] [] ⟨.nullCreate, 0⟩).2
    .null [] ⟨.nullCreate, 0⟩ [[]] rfl

/-- Driving lemma for the iteration wrapper over a reference meter with
`total = len(xs)`, `initial = 0`: the call that returns the `k`-th element
(0-based) leaves the iterator holding the rest of the sequence and the
meter at position `k`, not closed, with `_first` cleared. -/
theorem mkIter_next_run (xs : List Val) (k : Nat) (hk : k < xs.length) :
    ((mkIter xs).nextN k).next =
      (.value (xs.get ⟨k, hk⟩),
        { itr := xs.drop (k + 1),
          meter := .test { n := (k : Int), total := (xs.length : Int),
                           allowDecrement := true, kw := [], closed := false },
          first := false }) := by
  induction k with
  | zero =>
    cases xs with
    | nil => simp at hk
    | cons v rest =>
      show (mkIter (v :: rest)).next = _
      simp only [mkIter, TestProgressMeter.init, ProgressIterator.next, if_pos rfl]
      rfl
  | succ k ih =>
    have hk' : k < xs.length := by omega
    show (((mkIter xs).nextN k).next.2).next = _
    rw [ih hk']
    have hdrop : xs.drop (k + 1) = xs.get ⟨k + 1, hk⟩ :: xs.drop (k + 2) := by
      rw [List.get_eq_getElem]
      exact List.drop_eq_getElem_cons hk
    have hc3 : ¬((k : Int) + 1 < 0) := by omega
    have hc4 : ¬((xs.length : Int) < (k : Int) + 1) := by
      have := hk
      omega
    rw [hdrop]
    simp only [ProgressIterator.next, Meter.increment, TestState.increment,
      TestState.moveto]
    simp [hc3, hc4]

/-- Claim C3: iterating the wrapper over a sequence of length `L` with a
reference meter (`total = L`, `initial = 0`) drives the meter through
positions `0, 1, ..., L` exactly: the call returning the `k`-th element
leaves position `k` with the meter not closed, and the exhaustion call
raises the end-of-sequence signal with position `L` and the meter closed. -/
theorem iterator_full_run (xs : List Val) :
    (∀ (k : Nat) (hk : k < xs.length),
        ((mkIter xs).nextN k).next.1 = .value (xs.get ⟨k, hk⟩) ∧
        ((mkIter xs).nextN k).next.2.meter.position? = some (k : Int) ∧
        ((mkIter xs).nextN k).next.2.meter.closed? = some false) ∧
    (((mkIter xs).nextN xs.length).next.1 = .stop ∧
      ((mkIter xs).nextN xs.length).next.2.meter.position? =
        some (xs.length : Int) ∧
      ((mkIter xs).nextN xs.length).next.2.meter.closed? = some true) := by
  constructor
  · intro k hk
    rw [mkIter_next_run xs k hk]
    exact ⟨rfl, rfl, rfl⟩
  · by_cases h0 : xs.length = 0
    · have hnil : xs = [] := List.length_eq_zero.mp h0
      subst hnil
      exact ⟨rfl, rfl, rfl⟩
    · obtain ⟨m, hm⟩ : ∃ m, xs.length = m + 1 := ⟨xs.length - 1, by omega⟩
      have hk : m < xs.length := by omega
      have hstate : (mkIter xs).nextN xs.length =
          { itr := [],
            meter := .test { n := (m : Int), total := (xs.length : Int),
                             allowDecrement := true, kw := [], closed := false },
            first := false } := by
        have h1 : (mkIter xs).nextN xs.length =
            ((mkIter xs).nextN m).next.2 := by
          rw [hm]
          rfl
        rw [h1, mkIter_next_run xs m hk]
        have hdropnil : xs.drop (m + 1) = [] := by
          apply List.drop_eq_nil_of_le
          omega
        simp [hdropnil]
      rw [hstate]
      have hc3 : ¬((m : Int) + 1 < 0) := by omega
      have hc4 : ¬((xs.length : Int) < (m : Int) + 1) := by
        have := hm
        omega
      simp only [ProgressIterator.next, Meter.increment, TestState.increment,
        TestState.moveto]
      simp [hc3, hc4, Meter.close, Meter.position?, Meter.closed?]
      omega

/-- Witness for C3 on the two-element sequence `[5, 6]`. -/
theorem iterator_full_run_witness :
    ((mkIter [Val.int 5, Val.int 6]).nextN 0).next.1 = .value (Val.int 5) ∧
    ((mkIter [Val.int 5, Val.int 6]).nextN 1).next.2.meter.position? = some 1 ∧
    ((mkIter [Val.int 5, Val.int 6]).nextN 2).next.1 = .stop ∧
    ((mkIter [Val.int 5, Val.int 6]).nextN 2).next.2.meter.closed? = some true := by
  have h := iterator_full_run [Val.int 5, Val.int 6]
  exact ⟨(h.1 0 (by decide)).1, (h.1 1 (by decide)).2.1, h.2.1, h.2.2.2⟩

/-- Counterexample to claim C4 as stated: over a 3-element sequence,
consuming exactly `k = 1` element and then exiting the scope leaves the
reference meter at position `0`, not at the claimed position `k = 1`
(the increment for an element only happens when the following element is
requested). -/
theorem iterator_early_exit_counterexample :
    (((mkIter [Val.int 1, Val.int 2, Val.int 3]).nextN 1).exit).meter.position? =
      some 0 ∧
    (((mkIter [Val.int 1, Val.int 2, Val.int 3]).nextN 1).exit).meter.position? ≠
      some 1 := by
  decide

/-- Claim C4 (amended): consuming exactly `k` elements (`1 <= k < L`) from
the wrapper over a reference meter with `total = L`, `initial = 0`, then
exiting the scope, leaves the meter at position `k - 1` with `closed`
true. -/
theorem iterator_early_exit (xs : List Val) (k : Nat) (h1 : 1 ≤ k)
    (h2 : k < xs.length) :
    (((mkIter xs).nextN k).exit).meter.position? = some ((k : Int) - 1) ∧
    (((mkIter xs).nextN k).exit).meter.closed? = some true := by
  obtain ⟨j, rfl⟩ : ∃ j, k = j + 1 := ⟨k - 1, by omega⟩
  have hj : j < xs.length := by omega
  have hst : (mkIter xs).nextN (j + 1) = ((mkIter xs).nextN j).next.2 := rfl
  rw [hst, mkIter_next_run xs j hj]
  simp only [ProgressIterator.exit, Meter.close, Meter.position?, Meter.closed?]
  constructor
  · congr 1
    push_cast
    ring
  · trivial

/-- Witness for the amended C4 at `xs = [1, 2, 3]`, `k = 2`: position `1`,
closed. -/
theorem iterator_early_exit_witness :
    (((mkIter [Val.int 1, Val.int 2, Val.int 3]).nextN 2).exit).meter.position? =
      some 1 ∧
    (((mkIter [Val.int 1, Val.int 2, Val.int 3]).nextN 2).exit).meter.closed? =
      some true := by
  have h := iterator_early_exit [Val.int 1, Val.int 2, Val.int 3] 2
    (by decide) (by decide)
  exact ⟨h.1.trans (by decide), h.2⟩

/-- Claim C10: once a wrapper over a reference meter has reported
exhaustion (`StopIteration`, meter closed), a further `__next__` call first
runs `increment` on the closed meter and therefore propagates the meter's
`RuntimeError` instead of raising `StopIteration` again. -/
theorem iterator_after_stop_raises (it it' : ProgressIterator) (st : TestState)
    (hm : it.meter = .test st) (h : it.next = (.stop, it')) :
    it'.next = (.error .runtimeError, it') := by
  have hchar : it'.itr = [] ∧ it'.first = false ∧
      ∃ st', it'.meter = .test st' ∧ st'.closed = true := by
    unfold ProgressIterator.next at h
    rcases hf : it.first with _ | _
    · rw [hf] at h
      simp only [Bool.false_eq_true, if_false] at h
      rw [hm] at h
      rcases hinc : TestState.increment st 1 with ⟨e, st1⟩
      simp only [Meter.increment, hinc] at h
      cases e with
      | some err => simp at h
      | none =>
        cases hitr : it.itr with
        | nil =>
          rw [hitr] at h
          simp only at h
          have h2 := (Prod.mk.injEq _ _ _ _).mp h
          rw [← h2.2]
          exact ⟨rfl, rfl, { st1 with closed := true }, rfl, rfl⟩
        | cons v rest =>
          rw [hitr] at h
          simp at h
    · rw [hf] at h
      simp only [if_pos rfl] at h
      cases hitr : it.itr with
      | nil =>
        rw [hitr, hm] at h
        simp only at h
        have h2 := (Prod.mk.injEq _ _ _ _).mp h
        rw [← h2.2]
        exact ⟨rfl, rfl, { st with closed := true }, rfl, rfl⟩
      | cons v rest =>
        rw [hitr] at h
        simp at h
  obtain ⟨hitr, hfirst, st', hmeter, hclosed⟩ := hchar
  have hit' : { itr := it'.itr, meter := Meter.test st', first := it'.first } = it' := by
    rw [← hmeter]
  rw [hitr, hfirst] at hit'
  have hstep : TestState.moveto st' (st'.n + 1) = (some PyErr.runtimeError, st') := by
    unfold TestState.moveto
    rw [hclosed]
    simp
  unfold ProgressIterator.next
  rw [hfirst, hmeter, hitr]
  simp only [Bool.false_eq_true, if_false, Meter.increment, TestState.increment,
    hstep]
  rw [hit']

/-- Witness for C10: the empty-sequence wrapper reports exhaustion on its
first call; the following call raises `RuntimeError`. -/
theorem iterator_after_stop_raises_witness :
    ProgressIterator.next
        ⟨[], .test ⟨0, 0, true, [], true⟩, false⟩ =
      (.error .runtimeError, ⟨[], .test ⟨0, 0, true, [], true⟩, false⟩) :=
  iterator_after_stop_raises ⟨[], .test ⟨0, 0, true, [], false⟩, true⟩
    ⟨[], .test ⟨0, 0, true, [], true⟩, false⟩ ⟨0, 0, true, [], false⟩ rfl rfl

/-- Creating from a configuration whose stored options dict is the empty
dict freshly allocated at the end of the store (the state every
non-Configuration resolution branch produces when called with no extra
options). -/
theorem create_fresh_testCreate (total initial : Int) (s : Store) :
    ProgressConfig.create ⟨.testCreate, s.length⟩ total
      [("initial", Val.int initial)] (s ++ [[]]) =
    .ok (.test ⟨initial, total, true, [], false⟩) := by
  unfold ProgressConfig.create
  rw [store_get_append_length]
  rfl

/-- Counterexample to claim C2 as stated: the shape `None` is listed among
the valid shapes, but `get_progress(None, 100, initial=0)` returns a
`NullProgressMeter`, which never sets the `n`/`total`/`closed` attributes,
so the constructed monitor does not satisfy `position == initial`,
`total == total`, `closed == false`. -/
theorem get_progress_contract_counterexample :
    get_progress [] .null 100 0 [] [] = .ok .null ∧
    Meter.null.position? ≠ some 0 ∧
    Meter.null.total? ≠ some 100 ∧
    Meter.null.closed? ≠ some false := by
  decide

/-- Claim C2 (amended): resolution followed by `create(total, initial)`
yields a monitor with `position = initial`, `total = total`,
`closed = false` for the shapes backed by the reference meter factory — the
`TestProgressMeter` class, the bare `TestProgressMeter.create` factory
callable, and any Configuration over that factory whose stored options do
not name `total`; the shapes `None`, `False` and `True` (no backend
available) instead yield a `NullProgressMeter` that records no state.
(Registered string keys are covered by the C1 code bug.) -/
theorem get_progress_contract (reg : Registry) (s : Store)
    (total initial : Int) :
    (Except.map Meter.position?
        (get_progress reg (.cls .testMeter) total initial [] s) =
          .ok (some initial) ∧
      Except.map Meter.total?
        (get_progress reg (.cls .testMeter) total initial [] s) =
          .ok (some total) ∧
      Except.map Meter.closed?
        (get_progress reg (.cls .testMeter) total initial [] s) =
          .ok (some false)) ∧
    (Except.map Meter.position?
        (get_progress reg (.func .testCreate) total initial [] s) =
          .ok (some initial) ∧
      Except.map Meter.total?
        (get_progress reg (.func .testCreate) total initial [] s) =
          .ok (some total) ∧
      Except.map Meter.closed?
        (get_progress reg (.func .testCreate) total initial [] s) =
          .ok (some false)) ∧
    (∀ c : ProgressConfig, c.callable = .testCreate →
        kwLookup (Store.get s c.kw) "total" = Option.none →
        Except.map Meter.position?
            (get_progress reg (.config c) total initial [] s) =
            .ok (some initial) ∧
          Except.map Meter.total?
            (get_progress reg (.config c) total initial [] s) =
            .ok (some total) ∧
          Except.map Meter.closed?
            (get_progress reg (.config c) total initial [] s) =
            .ok (some false)) ∧
    (get_progress reg .null total initial [] s = .ok .null ∧
      get_progress reg .boolFalse total initial [] s = .ok .null ∧
      get_progress reg .boolTrue total initial [] s = .ok .null) := by
  have hcls : get_progress reg (.cls .testMeter) total initial [] s =
      ProgressConfig.create ⟨.testCreate, s.length⟩ total
        [("initial", Val.int initial)] (s ++ [[]]) := rfl
  have hfunc : get_progress reg (.func .testCreate) total initial [] s =
      ProgressConfig.create ⟨.testCreate, s.length⟩ total
        [("initial", Val.int initial)] (s ++ [[]]) := rfl
  have hnull : ∀ arg : ProgressArg,
      (arg = .null ∨ arg = .boolFalse ∨ arg = .boolTrue) →
      get_progress reg arg total initial [] s = .ok .null := by
    rintro arg (rfl | rfl | rfl) <;>
      · show callFactory .nullCreate total
          (dictUpdate (Store.get (s ++ [[]]) s.length)
            [("initial", Val.int initial)]) = .ok .null
        rw [store_get_append_length]
        rfl
  refine ⟨?_, ?_, ?_, hnull .null (Or.inl rfl), hnull .boolFalse (Or.inr (Or.inl rfl)),
    hnull .boolTrue (Or.inr (Or.inr rfl))⟩
  · rw [hcls, create_fresh_testCreate]
    exact ⟨rfl, rfl, rfl⟩
  · rw [hfunc, create_fresh_testCreate]
    exact ⟨rfl, rfl, rfl⟩
  · intro c hcall hnot
    have h1 : kwLookup (dictSet (Store.get s c.kw) "initial" (Val.int initial))
        "total" = Option.none := by
      rw [kwLookup_dictSet, if_neg (by decide)]
      exact hnot
    have h2 : kwLookup (dictSet (Store.get s c.kw) "initial" (Val.int initial))
        "initial" = some (Val.int initial) := by
      rw [kwLookup_dictSet, if_pos rfl]
    have hpop : popInitial (dictSet (Store.get s c.kw) "initial" (Val.int initial)) =
        .ok (initial,
          eraseKey (dictSet (Store.get s c.kw) "initial" (Val.int initial))
            "initial") := by
      unfold popInitial
      rw [h2]
    have hcreate : TestProgressMeter.create total
        (dictSet (Store.get s c.kw) "initial" (Val.int initial)) =
        .ok (.test (TestProgressMeter.init total initial
          (popTruthy (eraseKey (dictSet (Store.get s c.kw) "initial"
            (Val.int initial)) "initial") "allow_decrement" true).1
          (popTruthy (eraseKey (dictSet (Store.get s c.kw) "initial"
            (Val.int initial)) "initial") "allow_decrement" true).2)) := by
      unfold TestProgressMeter.create
      rw [hpop]
    have hns : ¬((Option.none : Option Val).isSome = true) := by decide
    have hm : get_progress reg (.config c) total initial [] s =
        .ok (.test (TestProgressMeter.init total initial
          (popTruthy (eraseKey (dictSet (Store.get s c.kw) "initial"
            (Val.int initial)) "initial") "allow_decrement" true).1
          (popTruthy (eraseKey (dictSet (Store.get s c.kw) "initial"
            (Val.int initial)) "initial") "allow_decrement" true).2)) := by
      show ProgressConfig.create c total [("initial", Val.int initial)] s = _
      unfold ProgressConfig.create
      rw [hcall]
      show (if (kwLookup (dictSet (Store.get s c.kw) "initial"
              (Val.int initial)) "total").isSome
            then (Except.error PyErr.typeError : Except PyErr Meter)
            else TestProgressMeter.create total
              (dictSet (Store.get s c.kw) "initial" (Val.int initial))) = _
      rw [h1, if_neg hns, hcreate]
    rw [hm]
    exact ⟨rfl, rfl, rfl⟩

/-- Witness for the amended C2: a Configuration over the reference factory
with an allocated (empty) options dict, at `total = 7`, `initial = 2`. -/
theorem get_progress_contract_witness :
    Except.map Meter.position?
        (get_progress [] (.config ⟨.testCreate, 0⟩) 7 2 [] [[]]) =
      .ok (some 2) ∧
    Except.map Meter.closed?
        (get_progress [] (.config ⟨.testCreate, 0⟩) 7 2 [] [[]]) =
      .ok (some false) := by
  have h := (get_progress_contract [] [[]] 7 2).2.2.1 ⟨.testCreate, 0⟩
    rfl (by decide)
  exact ⟨h.1, h.2.2⟩

/-- Claim C1 (code bug, evaluated): registering `"k"` stores the resolved
Configuration `⟨testCreate, 0⟩`, but resolving `"k"` afterwards returns a
*different* Configuration that wraps the registered `ProgressConfig`
*object* as its `callable`; since `ProgressConfig` instances are not
callable, `create` on the resolution result raises `TypeError` instead of
behaving like the registered Configuration.  The lookup-error half of the
claim holds: an unregistered key raises `KeyError`, propagated. -/
theorem register_then_resolve_string :
    register [] "k" (.cls .testMeter) false [] =
      .ok ([("k", ⟨.testCreate, 0⟩)], [[]]) ∧
    progress_config [("k", ⟨.testCreate, 0⟩)] (.str "k") [] [[]] =
      .ok (⟨.cfgObj .testCreate 0, 1⟩, [[], []]) ∧
    (⟨.cfgObj .testCreate 0, 1⟩ : ProgressConfig) ≠ ⟨.testCreate, 0⟩ ∧
    ProgressConfig.create ⟨.cfgObj .testCreate 0, 1⟩ 5
      [("initial", Val.int 0)] [[], []] = .error .typeError ∧
    progress_config [("k", ⟨.testCreate, 0⟩)] (.str "missing") [] [[]] =
      .error .keyError := by
  decide

end ProgressInterface
